import Mathlib

/-!
Verification of the HJB watcher directory-queue core
(`scripts/watcher/hjb_watcher.py`).

The Python source is shallowly embedded as pure Lean functions over an
explicit filesystem state `FS` that records the four queue directories
(`pending`, `processing`, `completed/<task_id>/`, `failed/<task_id>/`).
Machine-level concerns are modelled as follows:

* an atomic rename is a single step on `FS`; OS-level rename failures
  (file vanished, permission error, other I/O error) are injected through
  an explicit `Option OSErr` parameter, mirroring the three `except`
  clauses of `atomic_rename`;
* JSON manifests are represented at the parsed level (`FileContent`),
  covering the cases the watcher distinguishes: unparseable text,
  a parseable non-object, or an object with the fields the watcher reads;
* wall-clock readings (`datetime.now`) are supplied by a `Clock` record,
  and host/process identity (`socket.gethostname`, `os.getpid`, ...) by an
  `Env` record, since both are environment inputs to the program;
* the two stage1 task handlers perform external domain I/O that the spec
  declares out of scope; their initial payload-shape validation (which is
  watcher code) is embedded exactly, and their post-validation behaviour
  is an oracle parameter `HandlerOracle`;
* archival writes (`mkdir`, `write_text`, `write_json`) are modelled as
  succeeding; failure injection is confined to the claim rename, which is
  the operation the queue's correctness claims are about.
-/

/-- OS-level failure classes caught by `atomic_rename` in the source:
`FileNotFoundError`, `PermissionError`, and any other `OSError`. -/
inductive OSErr where
  | fileNotFound
  | permissionError
  | otherOS
deriving DecidableEq, Repr

/-- A Python exception, reduced to the two projections the watcher stores
in an Error Record: `type(ex).__name__` and `str(ex)`. -/
structure PyExc where
  ename : String
  emsg : String
deriving DecidableEq, Repr

/-- A scalar value inside a handler `metrics` mapping. -/
inductive MVal where
  | mstr (s : String)
  | mint (n : Int)
  | mbool (b : Bool)
  | mnull
deriving DecidableEq, Repr

/-- A handler-specific metrics mapping. -/
abbrev Metrics := List (String × MVal)

/-- A value of a field of a JSON record written by the watcher
(heartbeat, Result Record, Error Record, owner record). -/
inductive RVal where
  | vstr (s : String)
  | vint (n : Int)
  | vbool (b : Bool)
  | vlist (xs : List String)
  | vmetrics (m : Metrics)
deriving DecidableEq, Repr

/-- A JSON object written by the watcher, as an association list of
field name to value. -/
abbrev Record := List (String × RVal)

/-- Association-list lookup by string key (first match), used for record
fields and for directory listings. -/
def alook {α : Type} : List (String × α) → String → Option α
  | [], _ => none
  | (k, v) :: rest, key => if k = key then some v else alook rest key

/-- The free-form `parameters`/`payload` member of a manifest, at the
granularity the watcher inspects it: absent (or falsy, which
`payload or {}` turns into an empty dict), a JSON object, or a truthy
non-object value. The contents of an object payload are consumed only by
the out-of-scope handler domain logic. -/
inductive Payload where
  | missing
  | dictP
  | nonDict
deriving DecidableEq, Repr

/-- A parsed Task Manifest object, with the five members the watcher
reads. `none` models an absent member (or a JSON `null` for `schema`,
which the source treats identically via falsiness); non-string values of
the string members behave like absent ones in the source's
`isinstance` guards and are modelled as `none`. -/
structure Manifest where
  schema : Option String := none
  task_type : Option String := none
  task_id : Option String := none
  attempt : Option Int := none
  payload : Payload := .missing
deriving DecidableEq, Repr

/-- Content of a manifest file as `json.loads(dst.read_text())` sees it:
text that fails to parse, a parseable non-object, or an object. -/
inductive FileContent where
  | invalidJson
  | nonDict
  | manifest (m : Manifest)
deriving DecidableEq, Repr

/-- A file inside a `completed/<task_id>/` or `failed/<task_id>/` archive
directory: a byte-for-byte copy of a queue file (manifest copy, `.done`
or `.failed` marker), a handler-produced text artifact, or a JSON
record. -/
inductive ArchFile where
  | copy (c : FileContent)
  | text (s : String)
  | record (r : Record)
deriving DecidableEq, Repr

/-- The queue state: the four flag directories under `flags_root`.
`pending` and `processing` map file names to manifest contents;
`completed` and `failed` map a `task_id` to the listing of its archive
directory. -/
structure FS where
  pending : List (String × FileContent)
  processing : List (String × FileContent)
  completed : List (String × List (String × ArchFile))
  failed : List (String × List (String × ArchFile))
deriving DecidableEq, Repr

/-- Host and process identity facts the watcher embeds in its records. -/
structure Env where
  hostname : String
  pid : Int
  ppid : Int
  executable : String
  argv : List String
deriving DecidableEq, Repr

/-- Wall-clock readings used by one cycle: the ISO timestamps taken at
cycle start and at record-writing time, the compact `strftime` stamp used
in file names and derived task ids, and the elapsed whole seconds. -/
structure Clock where
  startIso : String
  endIso : String
  tsCompact : String
  elapsed : Int
deriving DecidableEq, Repr

/-- Post-validation behaviour of the two stage1 handlers
(`task_stage1_inventory`, `task_stage1_ia_download`): external domain
I/O the spec declares out of scope. Given the task type and manifest it
either fails with an exception or returns `(outputs, metrics)`. -/
abbrev HandlerOracle := String → Manifest → Except PyExc (List String × Metrics)

/-- Write (create or overwrite) a file in a directory listing, mirroring
`Path.write_text` / `write_json` into an existing directory. -/
def fileWrite : List (String × ArchFile) → String → ArchFile → List (String × ArchFile)
  | [], n, f => [(n, f)]
  | (k, v) :: rest, n, f =>
    if k = n then (n, f) :: rest else (k, v) :: fileWrite rest n f

/-- Write a file into `dirs/<tid>/<n>`, creating the `<tid>` directory if
needed (`mkdir(parents=True, exist_ok=True)` followed by a write). -/
def dirWrite : List (String × List (String × ArchFile)) → String → String → ArchFile →
    List (String × List (String × ArchFile))
  | [], tid, n, f => [(tid, [(n, f)])]
  | (k, d) :: rest, tid, n, f =>
    if k = tid then (k, fileWrite d n f) :: rest else (k, d) :: dirWrite rest tid n f

/-- Look up the file `n` inside archive directory `tid` of a
`completed`/`failed` tree. -/
def dlook (dirs : List (String × List (String × ArchFile))) (tid n : String) : Option ArchFile :=
  match alook dirs tid with
  | some d => alook d n
  | none => none

/-- Look up a file in `completed/<tid>/`. -/
def FS.completedFile (fs : FS) (tid n : String) : Option ArchFile :=
  dlook fs.completed tid n

/-- Look up a file in `failed/<tid>/`. -/
def FS.failedFile (fs : FS) (tid n : String) : Option ArchFile :=
  dlook fs.failed tid n

/-- Substring test, mirroring Python's `needle in hay`. -/
def strContains (hay needle : String) : Bool :=
  hay.toList.tails.any (fun t => needle.toList.isPrefixOf t)

/-- Suffix test on strings, via their character lists. -/
def strEndsWith (s suf : String) : Bool :=
  suf.toList.isSuffixOf s.toList

/-- Prefix test on strings, via their character lists. -/
def strStartsWith (s pre : String) : Bool :=
  pre.toList.isPrefixOf s.toList

/-- Python's `str.strip()`: remove leading and trailing whitespace. -/
def strTrim (s : String) : String :=
  String.mk (((s.toList.dropWhile Char.isWhitespace).reverse.dropWhile
    Char.isWhitespace).reverse)

/-- Strict lexicographic comparison of character lists by code point,
the order Python's `sorted` applies to the candidate file names. -/
def charListLt : List Char → List Char → Bool
  | [], [] => false
  | [], _ :: _ => true
  | _ :: _, [] => false
  | a :: as, b :: bs =>
    if a.toNat < b.toNat then true
    else if b.toNat < a.toNat then false
    else charListLt as bs

/-- Lexicographic strict order on strings. -/
def strLt (a b : String) : Bool :=
  charListLt a.toList b.toList

/-- Lexicographic order on strings (reflexive). -/
def strLe (a b : String) : Bool :=
  !(charListLt b.toList a.toList)

/-- The ordering relation used to sort candidate file names. -/
def strLeRel : String → String → Prop :=
  fun a b => strLe a b = true

instance decStrLeRel : DecidableRel strLeRel := fun a b =>
  if h : strLe a b = true then .isTrue h else .isFalse h

/-- The `Path.stem` of a file name: the name with its final
dot-suffix removed (a leading dot does not start a suffix). -/
def pathStem (s : String) : String :=
  match s.toList.reverse.dropWhile (fun ch => !(ch = '.')) with
  | [] => s
  | _ :: rest => if rest.isEmpty then s else String.mk rest.reverse

/-- Character of `s` at distance `i` from the end (index 0 is the last
character); used to separate the fixed file-name suffixes the watcher
writes. -/
def revCharAt (s : String) (i : Nat) : Option Char :=
  s.toList.reverse[i]?

theorem revCharAt_append (a b : String) (i : Nat) (h : i < b.toList.length) :
    revCharAt (a ++ b) i = revCharAt b i := by
  unfold revCharAt
  have hdata : (a ++ b).toList = a.toList ++ b.toList := by
    simp [String.toList, String.data_append]
  rw [hdata, List.reverse_append, List.getElem?_append_left]
  simpa using h

theorem ne_of_revCharAt {s t : String} (i : Nat)
    (h : revCharAt s i ≠ revCharAt t i) : s ≠ t := by
  intro he; exact h (by rw [he])

/-- Schema tag `TASK_SCHEMA_V1 = "hjb.task.v1"` (source line 41). -/
def TASK_SCHEMA_V1 : String := "hjb.task.v1"

/-- Schema tag `TASK_RESULT_SCHEMA_V1` (source line 42). -/
def TASK_RESULT_SCHEMA_V1 : String := "hjb.task_result.v1"

/-- Schema tag `TASK_ERROR_SCHEMA_V1` (source line 43). -/
def TASK_ERROR_SCHEMA_V1 : String := "hjb.task_error.v1"

/-- The stack-trace text `traceback.format_exc(limit=50)` stored in an
Error Record; its exact rendering is abstracted, its presence and
dependence on the exception are kept. -/
def tracebackOf (e : PyExc) : String :=
  "Traceback (most recent call last): " ++ e.ename ++ ": " ++ e.emsg

/-- Name of the processing marker a claim creates:
`f"{src.name}.{watcher_id}.processing"` (source line 594). -/
def markerName (src watcher : String) : String :=
  src ++ "." ++ watcher ++ ".processing"

/-- Name of the archived manifest copy (source lines 640, 687). -/
def manifestCopyName (tid watcher : String) : String :=
  tid ++ "." ++ watcher ++ ".manifest.json"

/-- Name of the Result Record file (source line 647). -/
def resultFileName (tid watcher ts : String) : String :=
  tid ++ "." ++ watcher ++ "." ++ ts ++ ".result.json"

/-- Name of the Error Record file (source line 695). -/
def errorFileName (tid watcher ts : String) : String :=
  tid ++ "." ++ watcher ++ "." ++ ts ++ ".error.json"

/-- Name of the retired processing marker on success (source line 666). -/
def doneMarkerName (src watcher : String) : String :=
  src ++ "." ++ watcher ++ ".done"

/-- Name of the retired processing marker on failure (source line 712). -/
def failedMarkerName (src watcher : String) : String :=
  src ++ "." ++ watcher ++ ".failed"

/-- The state after a successful claim rename of `pending/src` to
`processing/dst` carrying content `c`: the file leaves `pending` and
appears in `processing`. -/
def claimFS (fs : FS) (src dst : String) (c : FileContent) : FS :=
  { fs with
    pending := fs.pending.filter (fun p => !(p.1 == src)),
    processing := fs.processing ++ [(dst, c)] }

/-- The rename attempt `src.replace(dst)` (source line 85) with explicit
failure injection: `inj = some e` models the OS raising `e` (another
watcher won the race, a permission error, or any other `OSError`);
`inj = none` attempts the move, which itself fails with
`FileNotFoundError` if the pending file is absent. -/
def tryRenameClaim (inj : Option OSErr) (src dst : String) (fs : FS) :
    Except OSErr (FS × FileContent) :=
  match inj with
  | some e => .error e
  | none =>
    match fs.pending.find? (fun p => p.1 == src) with
    | none => .error .fileNotFound
    | some pc => .ok (claimFS fs src dst pc.2, pc.2)

/-- Embedding of `atomic_rename` (source lines 79-93): returns `true`
exactly when the rename succeeded and changes nothing otherwise; every
failure class is caught and mapped to `false`, so the function is total
and no exception escapes. -/
def atomic_rename (inj : Option OSErr) (src dst : String) (fs : FS) : Bool × FS :=
  match tryRenameClaim inj src dst fs with
  | .ok r => (true, r.1)
  | .error _ => (false, fs)

/-- Embedding of `is_orionmx_busy` (source lines 266-278): scan the
`processing` directory and report whether any file name contains the
substring `"orionmx_"`. -/
def is_orionmx_busy (fs : FS) : Bool :=
  fs.processing.any (fun p => strContains p.1 "orionmx_")

/-- The heartbeat payload (source lines 565-577). -/
def mkHeartbeat (env : Env) (watcher : String) (clock : Clock)
    (pollSeconds : Int) (opportunistic : Bool) : Record :=
  [("watcher_id", .vstr watcher),
   ("hostname", .vstr env.hostname),
   ("pid", .vint env.pid),
   ("ppid", .vint env.ppid),
   ("executable", .vstr env.executable),
   ("argv", .vlist env.argv),
   ("utc", .vstr clock.startIso),
   ("mode", .vstr "success_v0"),
   ("poll_seconds", .vint pollSeconds),
   ("status", .vstr "running"),
   ("opportunistic", .vbool opportunistic)]

/-- The Result Record payload (source lines 648-662). -/
def mkResultRecord (env : Env) (clock : Clock) (watcher tid ttype : String)
    (att : Int) (outs : List String) (mets : Metrics) : Record :=
  [("schema", .vstr TASK_RESULT_SCHEMA_V1),
   ("task_id", .vstr tid),
   ("task_type", .vstr ttype),
   ("attempt", .vint att),
   ("watcher_id", .vstr watcher),
   ("hostname", .vstr env.hostname),
   ("pid", .vint env.pid),
   ("started_utc", .vstr clock.startIso),
   ("ended_utc", .vstr clock.endIso),
   ("duration_seconds", .vint clock.elapsed),
   ("status", .vstr "ok"),
   ("outputs", .vlist outs),
   ("metrics", .vmetrics mets)]

/-- The Error Record payload (source lines 696-709). -/
def mkErrorRecord (env : Env) (clock : Clock) (watcher tid : String)
    (e : PyExc) : Record :=
  [("schema", .vstr TASK_ERROR_SCHEMA_V1),
   ("task_id", .vstr tid),
   ("watcher_id", .vstr watcher),
   ("hostname", .vstr env.hostname),
   ("pid", .vint env.pid),
   ("started_utc", .vstr clock.startIso),
   ("ended_utc", .vstr clock.endIso),
   ("duration_seconds", .vint clock.elapsed),
   ("status", .vstr "error"),
   ("error_type", .vstr e.ename),
   ("error", .vstr e.emsg),
   ("traceback", .vstr (tracebackOf e))]

/-- The truthy-and-different test `if schema and schema != TASK_SCHEMA_V1`
(source line 607): an absent or `null` or empty `schema` is falsy and
passes; a non-empty one must equal `TASK_SCHEMA_V1`. -/
def schemaTruthyBad (s : Option String) : Bool :=
  match s with
  | none => false
  | some v => !(v == "") && !(v == TASK_SCHEMA_V1)

/-- Rendering of the schema value inside the error message
`f"Unsupported task schema: {schema}"`. -/
def schemaShow : Option String → String
  | some v => v
  | none => "None"

/-- The fallback task id derived at source lines 617-619 and 674-675:
`f"{ts}_{dst.stem}"` from the compact timestamp and the processing
marker stem. -/
def derived_task_id (clock : Clock) (dst : String) : String :=
  clock.tsCompact ++ "_" ++ pathStem dst

/-- The task id under which a failure is archived (source lines 674-681):
the manifest's `task_id` if it parses to a non-blank string, else the
derived fallback id. -/
def failure_task_id (clock : Clock) (dst : String) (c : FileContent) : String :=
  match c with
  | .manifest m =>
    match m.task_id with
    | some i => if strTrim i ≠ "" then strTrim i else derived_task_id clock dst
    | none => derived_task_id clock dst
  | _ => derived_task_id clock dst

/-- Embedding of `task_stage1_inventory` (source lines 320-475): the
payload-shape validation performed by watcher code (`payload or {}` makes
an absent or falsy payload an empty dict, which then fails the
`payload.roots` check with `KeyError`; a truthy non-dict fails the
`isinstance` check with `ValueError`); the filesystem walk over the
operator roots is external domain I/O, supplied by the oracle. -/
def task_stage1_inventory (oracle : HandlerOracle) (m : Manifest) :
    Except PyExc (List String × Metrics) :=
  match m.payload with
  | .nonDict => .error ⟨"ValueError", "payload must be an object (dict)"⟩
  | .missing => .error ⟨"KeyError", "payload.roots must be a list of UNC path strings"⟩
  | .dictP => oracle "stage1.inventory" m

/-- Embedding of `task_stage1_ia_download` (source lines 479-530): the
same payload-shape validation (an empty dict fails the
`payload.list_file` check), then the external subprocess run is supplied
by the oracle. -/
def task_stage1_ia_download (oracle : HandlerOracle) (m : Manifest) :
    Except PyExc (List String × Metrics) :=
  match m.payload with
  | .nonDict => .error ⟨"ValueError", "payload must be an object (dict)"⟩
  | .missing => .error ⟨"KeyError", "payload.list_file must be a string path"⟩
  | .dictP => oracle "stage1.ia_download" m

/-- Embedding of `execute_manifest_task` (source lines 281-308): the
handler registry. The `noop` handler is embedded fully: it creates
`completed/<task_id>/noop/noop_<task_id>_<ts>.txt` containing
`"noop ok\n"` and returns that path with metric `noop: true`. The two
stage1 handlers validate their payload and defer to the oracle. Any
other `task_type` raises `ValueError(f"Unknown task_type: {task_type}")`. -/
def execute_manifest_task (oracle : HandlerOracle) (clock : Clock)
    (flagsRoot : String) (fs : FS) (m : Manifest) (tid ttype : String) :
    Except PyExc (FS × List String × Metrics) :=
  if ttype = "noop" then
    let rel := "noop/noop_" ++ tid ++ "_" ++ clock.tsCompact ++ ".txt"
    .ok ({ fs with completed := dirWrite fs.completed tid rel (.text "noop ok\n") },
      [flagsRoot ++ "/completed/" ++ tid ++ "/" ++ rel],
      [("noop", .mbool true)])
  else if ttype = "stage1.inventory" then
    (task_stage1_inventory oracle m).map (fun om => (fs, om.1, om.2))
  else if ttype = "stage1.ia_download" then
    (task_stage1_ia_download oracle m).map (fun om => (fs, om.1, om.2))
  else .error ⟨"ValueError", "Unknown task_type: " ++ ttype⟩

/-- Embedding of the `try` block of `run_once` (source lines 601-634):
parse the claimed file, check the schema tag, extract and validate
`task_type`, resolve `task_id` (deriving a fallback id when absent or
blank), normalize `attempt`, and dispatch to the handler. The result
carries the possibly handler-extended filesystem and the values the
success archival needs. -/
def tryBlock (oracle : HandlerOracle) (clock : Clock) (flagsRoot : String)
    (fs : FS) (dst : String) (c : FileContent) :
    Except PyExc (FS × String × String × Int × List String × Metrics) :=
  match c with
  | .invalidJson => .error ⟨"JSONDecodeError", "Expecting value: line 1 column 1 (char 0)"⟩
  | .nonDict => .error ⟨"ValueError", "Task manifest JSON must be an object (dict)"⟩
  | .manifest m =>
    if schemaTruthyBad m.schema then
      .error ⟨"ValueError", "Unsupported task schema: " ++ schemaShow m.schema⟩
    else
      match m.task_type with
      | none => .error ⟨"KeyError", "Missing required task_type (string)"⟩
      | some t0 =>
        if strTrim t0 = "" then .error ⟨"KeyError", "Missing required task_type (string)"⟩
        else
          let ttype := strTrim t0
          let tid := strTrim (match m.task_id with
            | some i => if strTrim i ≠ "" then i else derived_task_id clock dst
            | none => derived_task_id clock dst)
          let att : Int := match m.attempt with
            | some a => if a ≥ 1 then a else 1
            | none => 1
          (execute_manifest_task oracle clock flagsRoot fs m tid ttype).map
            (fun r => (r.1, tid, ttype, att, r.2.1, r.2.2))

/-- The success archival of `run_once` (source lines 636-668): create
`completed/<task_id>/`, copy the original manifest into it, write the
Result Record, then retire the processing marker into the same directory
as a `.done` artifact (a move, not a delete). -/
def archiveSuccess (env : Env) (clock : Clock) (watcher : String) (fs : FS)
    (src dst tid ttype : String) (att : Int) (c : FileContent)
    (outs : List String) (mets : Metrics) : FS :=
  let co := dirWrite fs.completed tid (manifestCopyName tid watcher) (.copy c)
  let co := dirWrite co tid (resultFileName tid watcher clock.tsCompact)
    (.record (mkResultRecord env clock watcher tid ttype att outs mets))
  let co := dirWrite co tid (doneMarkerName src watcher) (.copy c)
  { fs with
    completed := co,
    processing := fs.processing.filter (fun p => !(p.1 == dst)) }

/-- The failure archival of `run_once` (source lines 672-714): determine
the archive id (manifest `task_id` or derived fallback), create
`failed/<id>/`, copy the manifest into it, write the Error Record, then
retire the processing marker into the same directory as a `.failed`
artifact. -/
def archiveFailure (env : Env) (clock : Clock) (watcher : String) (fs : FS)
    (src dst : String) (c : FileContent) (e : PyExc) : FS :=
  let fid := failure_task_id clock dst c
  let fa := dirWrite fs.failed fid (manifestCopyName fid watcher) (.copy c)
  let fa := dirWrite fa fid (errorFileName fid watcher clock.tsCompact)
    (.record (mkErrorRecord env clock watcher fid e))
  let fa := dirWrite fa fid (failedMarkerName src watcher) (.copy c)
  { fs with
    failed := fa,
    processing := fs.processing.filter (fun p => !(p.1 == dst)) }

/-- The candidate list `sorted([p for p in pending.glob("*.json") if
p.is_file()])` (source line 592): the `.json`-named pending files in
ascending lexicographic filename order. -/
def jsonCandidates (fs : FS) : List String :=
  List.insertionSort strLeRel
    ((fs.pending.map Prod.fst).filter (fun n => strEndsWith n ".json"))

/-- The single candidate the cycle attempts (`json_candidates[:1]`). -/
def selectCandidate (fs : FS) : Option String :=
  (jsonCandidates fs).head?

/-- Embedding of one watcher cycle `run_once` (source lines 532-718).
Returns `((task_processed, final_fs), heartbeat)`; the heartbeat record
is written to `state_root` on every cycle and returned separately since
it lives outside the flag directories. The required-directory pre-flight
checks (fatal at startup when the deployment is missing directories) are
assumed satisfied. -/
def run_once (oracle : HandlerOracle) (env : Env) (clock : Clock)
    (flagsRoot watcher : String) (pollSeconds : Int) (opportunistic : Bool)
    (inj : Option OSErr) (fs : FS) : (Bool × FS) × Record :=
  let hb := mkHeartbeat env watcher clock pollSeconds opportunistic
  if opportunistic && !(is_orionmx_busy fs) then ((false, fs), hb)
  else
    match selectCandidate fs with
    | none => ((false, fs), hb)
    | some src =>
      let dst := markerName src watcher
      match tryRenameClaim inj src dst fs with
      | .error _ => ((false, fs), hb)
      | .ok (fs1, c) =>
        match tryBlock oracle clock flagsRoot fs1 dst c with
        | .ok (fs2, tid, ttype, att, outs, mets) =>
          ((true, archiveSuccess env clock watcher fs2 src dst tid ttype att c outs mets), hb)
        | .error e =>
          ((false, archiveFailure env clock watcher fs1 src dst c e), hb)

/-- A serialization of N concurrent `claim` invocations on the same
pending manifest `name`: each invocation is the single atomic rename
step of `atomic_rename`, so any concurrent execution is an interleaving
of these steps, i.e. a sequence. Returns the boolean outcome of each watcher
in order together with the final state. -/
def runClaims (name : String) : List String → FS → List Bool × FS
  | [], fs => ([], fs)
  | w :: ws, fs =>
    let r := atomic_rename none name (markerName name w) fs
    let rest := runClaims name ws r.2
    (r.1 :: rest.1, rest.2)

/-- State of the `locks/` tree under `state_root`: the set of existing
lock directories and the owner records inside them. -/
structure LockState where
  locks : List String
  owners : List (String × Record)
deriving DecidableEq, Repr

/-- Outcome of a lock acquisition: the handle (lock directory path) or
a `SystemExit` because the lock is already held. -/
inductive AcquireResult where
  | acquired (lockDir : String)
  | lockHeld (lockDir : String)
deriving DecidableEq, Repr

/-- Lock directory name `f"watcher_{watcher_id}.lock"` (source line 133). -/
def lockDirName (watcher : String) : String :=
  "watcher_" ++ watcher ++ ".lock"

/-- The owner record written inside a fresh lock (source lines 146-152). -/
def mkOwnerRecord (env : Env) (clock : Clock) (watcher : String) : Record :=
  [("watcher_id", .vstr watcher),
   ("hostname", .vstr env.hostname),
   ("pid", .vint env.pid),
   ("utc_started", .vstr clock.startIso),
   ("utc_last_seen", .vstr clock.startIso)]

/-- Embedding of `acquire_single_instance_lock` (source lines 122-157):
one atomic `mkdir` that fails immediately with `SystemExit` when the
directory already exists (no retry, no wait), else creates the lock and
then best-effort writes the owner record; `ownerWriteOk = false` models
the owner write raising, which is swallowed and does not roll back the
lock. -/
def acquire_single_instance_lock (env : Env) (clock : Clock)
    (ownerWriteOk : Bool) (watcher : String) (st : LockState) :
    AcquireResult × LockState :=
  let ld := lockDirName watcher
  if ld ∈ st.locks then (.lockHeld ld, st)
  else
    let st1 : LockState := { st with locks := ld :: st.locks }
    let st2 : LockState :=
      if ownerWriteOk then
        { st1 with owners := (ld, mkOwnerRecord env clock watcher) :: st1.owners }
      else st1
    (.acquired ld, st2)

/-- Well-formedness of a Result Record, following the field list of the spec:
identity (`task_id`, `task_type`, `attempt`, `watcher_id`), timing
(start/end timestamps, duration), `status: "ok"`, `outputs`, `metrics`,
under the result schema tag. -/
def wellFormedResultRecord (r : Record) : Prop :=
  alook r "schema" = some (.vstr TASK_RESULT_SCHEMA_V1) ∧
  (alook r "task_id").isSome ∧
  (alook r "task_type").isSome ∧
  (alook r "attempt").isSome ∧
  (alook r "watcher_id").isSome ∧
  (alook r "started_utc").isSome ∧
  (alook r "ended_utc").isSome ∧
  (alook r "duration_seconds").isSome ∧
  alook r "status" = some (.vstr "ok") ∧
  (alook r "outputs").isSome ∧
  (alook r "metrics").isSome

/-- The fields an Error Record written by this code actually carries:
`task_id`, `watcher_id`, timing fields, `status: "error"`, `error_type`,
`error` and `traceback` under the error schema tag. -/
def wellFormedErrorRecord (r : Record) : Prop :=
  alook r "schema" = some (.vstr TASK_ERROR_SCHEMA_V1) ∧
  (alook r "task_id").isSome ∧
  (alook r "watcher_id").isSome ∧
  (alook r "started_utc").isSome ∧
  (alook r "ended_utc").isSome ∧
  (alook r "duration_seconds").isSome ∧
  alook r "status" = some (.vstr "error") ∧
  (alook r "error_type").isSome ∧
  (alook r "error").isSome ∧
  (alook r "traceback").isSome

/-- Malformedness of a claimed manifest in the sense the dispatch code
rejects before reaching any handler: unparseable JSON, a non-object, an
unsupported non-empty schema tag, or a missing/blank `task_type`. -/
def malformedContent (c : FileContent) : Bool :=
  match c with
  | .invalidJson => true
  | .nonDict => true
  | .manifest m =>
    schemaTruthyBad m.schema ||
      (match m.task_type with
       | none => true
       | some t => strTrim t = "")

/-- Modelled from the spec: the watcher identities a processing-marker
file name can be attributed to. Markers are created under the name
`<original>.<watcher_id>.processing`, so the possible owners of a name
are the strings between some dot and the final `.processing` suffix. -/
def markerOwnerCandidates (name : String) : List String :=
  if strEndsWith name ".processing" then
    let core := name.toList.take (name.toList.length - ".processing".toList.length)
    (List.range core.length).filterMap (fun i =>
      match core[i]? with
      | some ch => if ch = '.' then some (String.mk (core.drop (i + 1))) else none
      | none => none)
  else []

/-- Modelled from the spec: whether a processing-marker file name can
belong to a designated primary (`orionmx_*`) watcher identity. -/
def ownedByOrionmx (name : String) : Bool :=
  (markerOwnerCandidates name).any (fun w => strStartsWith w "orionmx_")

/-- A concrete oracle for closed runs: every external handler invocation
fails; the concrete theorems below never reach it. -/
def oracle0 : HandlerOracle := fun _ _ => .error ⟨"RuntimeError", "external handler"⟩

/-- Concrete host identity for closed runs. -/
def env0 : Env :=
  { hostname := "orionmx", pid := 4242, ppid := 1,
    executable := "python.exe", argv := ["hjb_watcher.py"] }

/-- Concrete clock for closed runs. -/
def clock0 : Clock :=
  { startIso := "2025-01-02T03:04:05+00:00",
    endIso := "2025-01-02T03:04:06+00:00",
    tsCompact := "20250102T030405Z",
    elapsed := 1 }

/-- A well-formed `noop` manifest with task id `t3`. -/
def manifestNoop3 : Manifest :=
  { schema := some TASK_SCHEMA_V1, task_type := some "noop", task_id := some "t3",
    attempt := some 1, payload := .missing }

/-- Queue state with a single pending `noop` manifest `a.json`. -/
def fsNoop3 : FS :=
  { pending := [("a.json", .manifest manifestNoop3)],
    processing := [], completed := [], failed := [] }

/-- A manifest whose `task_type` is not in the handler registry. -/
def manifestUnknown5 : Manifest :=
  { task_type := some "does_not_exist", task_id := some "tid5a" }

/-- Queue state for the unknown-task-type run. -/
def fsUnknown5 : FS :=
  { pending := [("t.json", .manifest manifestUnknown5)],
    processing := [], completed := [], failed := [] }

/-- A `stage1.inventory` manifest whose payload is a truthy non-object,
making the handler itself raise `ValueError`. -/
def manifestBadPayload5 : Manifest :=
  { task_type := some "stage1.inventory", task_id := some "tid5b",
    payload := .nonDict }

/-- Queue state for the handler-ValueError run. -/
def fsBadPayload5 : FS :=
  { pending := [("u.json", .manifest manifestBadPayload5)],
    processing := [], completed := [], failed := [] }

/-- Queue state for the missing-`task_id` run: a `noop` manifest with no
`task_id` member at all. -/
def fsNoId6 : FS :=
  { pending := [("a.json", .manifest { task_type := some "noop" })],
    processing := [], completed := [], failed := [] }

/-- Queue state for the opportunistic-gating run: one pending `noop`
task, and a processing marker created by watcher `helper` for a manifest
the producer happened to name `orionmx_data.json`. No marker belongs to
an `orionmx_*` watcher. -/
def fsOpp7 : FS :=
  { pending := [("t.json", .manifest { task_type := some "noop", task_id := some "t7" })],
    processing := [("orionmx_data.json.helper.processing", .manifest {})],
    completed := [], failed := [] }

/-- Queue state for the selection-policy run: a non-`.json` file that is
lexicographically first, and a `.json` manifest after it. -/
def fsSel8 : FS :=
  { pending :=
      [("a.txt", .manifest { task_type := some "noop", task_id := some "t8a" }),
       ("b.json", .manifest { task_type := some "noop", task_id := some "t8b" })],
    processing := [], completed := [], failed := [] }

/-- Queue state for the Error Record shape run: a manifest with an
unknown task type and task id `tid4`. -/
def fsErr4 : FS :=
  { pending := [("t.json", .manifest { task_type := some "bad", task_id := some "tid4" })],
    processing := [], completed := [], failed := [] }

theorem char_eq_of_toNat_eq {a b : Char} (h : a.toNat = b.toNat) : a = b := by
  rw [← Char.ofNat_toNat a, ← Char.ofNat_toNat b, h]

theorem charListLt_irrefl : ∀ a : List Char, charListLt a a = false
  | [] => rfl
  | c :: cs => by
    simp only [charListLt, Nat.lt_irrefl, if_false]
    exact charListLt_irrefl cs

theorem charListLt_trans :
    ∀ (a b c : List Char), charListLt a b = true → charListLt b c = true →
      charListLt a c = true
  | [], _, _ :: _, _, _ => rfl
  | [], [], [], h1, _ => by simp [charListLt] at h1
  | [], _ :: _, [], _, h2 => by simp [charListLt] at h2
  | _ :: _, [], _, h1, _ => by simp [charListLt] at h1
  | _ :: _, _ :: _, [], _, h2 => by simp [charListLt] at h2
  | a :: as, b :: bs, c :: cs, h1, h2 => by
    simp only [charListLt] at h1 h2 ⊢
    have H1 : a.toNat < b.toNat ∨ (a.toNat = b.toNat ∧ charListLt as bs = true) := by
      by_cases hab : a.toNat < b.toNat
      · exact .inl hab
      · by_cases hba : b.toNat < a.toNat
        · rw [if_neg hab, if_pos hba] at h1; exact absurd h1 (by simp)
        · rw [if_neg hab, if_neg hba] at h1; exact .inr ⟨by omega, h1⟩
    have H2 : b.toNat < c.toNat ∨ (b.toNat = c.toNat ∧ charListLt bs cs = true) := by
      by_cases hbc : b.toNat < c.toNat
      · exact .inl hbc
      · by_cases hcb : c.toNat < b.toNat
        · rw [if_neg hbc, if_pos hcb] at h2; exact absurd h2 (by simp)
        · rw [if_neg hbc, if_neg hcb] at h2; exact .inr ⟨by omega, h2⟩
    rcases H1 with hab | ⟨hab, hr1⟩ <;> rcases H2 with hbc | ⟨hbc, hr2⟩
    · rw [if_pos (by omega : a.toNat < c.toNat)]
    · rw [if_pos (by omega : a.toNat < c.toNat)]
    · rw [if_pos (by omega : a.toNat < c.toNat)]
    · rw [if_neg (by omega : ¬ a.toNat < c.toNat), if_neg (by omega : ¬ c.toNat < a.toNat)]
      exact charListLt_trans as bs cs hr1 hr2

theorem charListLt_connex :
    ∀ (a b : List Char), charListLt a b = false → charListLt b a = false → a = b
  | [], [], _, _ => rfl
  | [], _ :: _, h1, _ => by simp [charListLt] at h1
  | _ :: _, [], _, h2 => by simp [charListLt] at h2
  | a :: as, b :: bs, h1, h2 => by
    simp only [charListLt] at h1 h2
    by_cases hab : a.toNat < b.toNat
    · rw [if_pos hab] at h1; exact absurd h1 (by simp)
    · by_cases hba : b.toNat < a.toNat
      · rw [if_pos hba] at h2; exact absurd h2 (by simp)
      · rw [if_neg hab, if_neg hba] at h1
        rw [if_neg hba, if_neg hab] at h2
        have hc : a = b := char_eq_of_toNat_eq (by omega)
        rw [hc, charListLt_connex as bs h1 h2]

theorem charListLt_asymm {a b : List Char} (h : charListLt a b = true) :
    charListLt b a = false := by
  by_contra hc
  have h2 : charListLt b a = true := by
    cases hba : charListLt b a
    · exact absurd hba hc
    · rfl
  have := charListLt_trans a b a h h2
  rw [charListLt_irrefl a] at this
  exact absurd this (by simp)

theorem strLe_refl (a : String) : strLe a a = true := by
  simp [strLe, charListLt_irrefl]

instance : IsTotal String strLeRel := by
  constructor
  intro a b
  by_cases h : charListLt b.toList a.toList = true
  · right
    show strLe b a = true
    simp only [strLe, Bool.not_eq_true']
    exact charListLt_asymm h
  · left
    show strLe a b = true
    simp only [strLe, Bool.not_eq_true']
    cases hc : charListLt b.toList a.toList
    · rfl
    · exact absurd hc h

instance : IsTrans String strLeRel := by
  constructor
  intro a b c hab hbc
  have hba : charListLt b.toList a.toList = false := by
    have := hab; simpa [strLeRel, strLe] using this
  have hcb : charListLt c.toList b.toList = false := by
    have := hbc; simpa [strLeRel, strLe] using this
  show strLe a c = true
  simp only [strLe, Bool.not_eq_true']
  by_contra hc
  have hca : charListLt c.toList a.toList = true := by
    cases h : charListLt c.toList a.toList
    · exact absurd h (by simpa using hc)
    · rfl
  by_cases hbc2 : charListLt b.toList c.toList = true
  · have := charListLt_trans _ _ _ hbc2 hca
    rw [hba] at this
    exact absurd this (by simp)
  · have hbc3 : charListLt b.toList c.toList = false := by
      cases h : charListLt b.toList c.toList
      · rfl
      · exact absurd h hbc2
    have heq := charListLt_connex _ _ hbc3 hcb
    rw [heq] at hba
    rw [hba] at hca
    exact absurd hca (by simp)

theorem alook_fileWrite_self (l : List (String × ArchFile)) (n : String) (f : ArchFile) :
    alook (fileWrite l n f) n = some f := by
  induction l with
  | nil => simp [fileWrite, alook]
  | cons p rest ih =>
    obtain ⟨k, v⟩ := p
    by_cases h : k = n
    · simp [fileWrite, h, alook]
    · simp [fileWrite, h, alook, ih]

theorem alook_fileWrite_ne (l : List (String × ArchFile)) (n : String) (f : ArchFile)
    (n' : String) (h : n' ≠ n) : alook (fileWrite l n f) n' = alook l n' := by
  induction l with
  | nil => simp [fileWrite, alook, Ne.symm h]
  | cons p rest ih =>
    obtain ⟨k, v⟩ := p
    by_cases hk : k = n
    · subst hk
      simp [fileWrite, alook, Ne.symm h]
    · simp [fileWrite, hk, alook, ih]

theorem dlook_dirWrite_self (ds : List (String × List (String × ArchFile)))
    (tid n : String) (f : ArchFile) : dlook (dirWrite ds tid n f) tid n = some f := by
  induction ds with
  | nil => simp [dirWrite, dlook, alook, alook_fileWrite_self]
  | cons p rest ih =>
    obtain ⟨k, d⟩ := p
    by_cases h : k = tid
    · subst h
      simp [dirWrite, dlook, alook, alook_fileWrite_self]
    · simp only [dirWrite, if_neg h]
      simpa [dlook, alook, h] using ih

theorem dlook_dirWrite_ne_file (ds : List (String × List (String × ArchFile)))
    (tid n : String) (f : ArchFile) (n' : String) (h : n' ≠ n) :
    dlook (dirWrite ds tid n f) tid n' = dlook ds tid n' := by
  induction ds with
  | nil => simp [dirWrite, dlook, alook, Ne.symm h]
  | cons p rest ih =>
    obtain ⟨k, d⟩ := p
    by_cases hk : k = tid
    · subst hk
      simp [dirWrite, dlook, alook, alook_fileWrite_ne _ _ _ _ h]
    · simp only [dirWrite, if_neg hk]
      simpa [dlook, alook, hk] using ih

theorem alook_filter_out {α : Type} (l : List (String × α)) (n : String) :
    alook (l.filter (fun p => !(p.1 == n))) n = none := by
  induction l with
  | nil => simp [alook]
  | cons p rest ih =>
    obtain ⟨k, v⟩ := p
    rw [List.filter_cons]
    by_cases h : k = n
    · have hb : (!((k, v).1 == n)) = false := by simp [h]
      rw [hb]
      simpa using ih
    · have hb : (!((k, v).1 == n)) = true := by simp [h]
      rw [hb]
      simpa [alook, h] using ih

theorem append_manifest_ne_result (x y : String) :
    x ++ ".manifest.json" ≠ y ++ ".result.json" := by
  apply ne_of_revCharAt 6
  rw [revCharAt_append x ".manifest.json" 6 (by decide),
    revCharAt_append y ".result.json" 6 (by decide)]
  decide

theorem append_manifest_ne_done (x y : String) :
    x ++ ".manifest.json" ≠ y ++ ".done" := by
  apply ne_of_revCharAt 0
  rw [revCharAt_append x ".manifest.json" 0 (by decide),
    revCharAt_append y ".done" 0 (by decide)]
  decide

theorem append_result_ne_done (x y : String) :
    x ++ ".result.json" ≠ y ++ ".done" := by
  apply ne_of_revCharAt 0
  rw [revCharAt_append x ".result.json" 0 (by decide),
    revCharAt_append y ".done" 0 (by decide)]
  decide

theorem append_manifest_ne_error (x y : String) :
    x ++ ".manifest.json" ≠ y ++ ".error.json" := by
  apply ne_of_revCharAt 5
  rw [revCharAt_append x ".manifest.json" 5 (by decide),
    revCharAt_append y ".error.json" 5 (by decide)]
  decide

theorem append_manifest_ne_failed (x y : String) :
    x ++ ".manifest.json" ≠ y ++ ".failed" := by
  apply ne_of_revCharAt 0
  rw [revCharAt_append x ".manifest.json" 0 (by decide),
    revCharAt_append y ".failed" 0 (by decide)]
  decide

theorem append_error_ne_failed (x y : String) :
    x ++ ".error.json" ≠ y ++ ".failed" := by
  apply ne_of_revCharAt 0
  rw [revCharAt_append x ".error.json" 0 (by decide),
    revCharAt_append y ".failed" 0 (by decide)]
  decide

theorem archiveSuccess_facts (env : Env) (clock : Clock) (w : String) (fs : FS)
    (src dst tid ttype : String) (att : Int) (c : FileContent)
    (outs : List String) (mets : Metrics) :
    (archiveSuccess env clock w fs src dst tid ttype att c outs mets).completedFile tid
        (manifestCopyName tid w) = some (.copy c) ∧
    (archiveSuccess env clock w fs src dst tid ttype att c outs mets).completedFile tid
        (resultFileName tid w clock.tsCompact) =
      some (.record (mkResultRecord env clock w tid ttype att outs mets)) ∧
    (archiveSuccess env clock w fs src dst tid ttype att c outs mets).completedFile tid
        (doneMarkerName src w) = some (.copy c) ∧
    (archiveSuccess env clock w fs src dst tid ttype att c outs mets).pending = fs.pending ∧
    alook (archiveSuccess env clock w fs src dst tid ttype att c outs mets).processing dst =
      none := by
  refine ⟨?_, ?_, ?_, rfl, ?_⟩
  · show dlook _ tid _ = _
    simp only [archiveSuccess, manifestCopyName, resultFileName, doneMarkerName]
    rw [dlook_dirWrite_ne_file _ _ _ _ _ (append_manifest_ne_done (tid ++ "." ++ w) (src ++ "." ++ w)),
      dlook_dirWrite_ne_file _ _ _ _ _
        (append_manifest_ne_result (tid ++ "." ++ w) (tid ++ "." ++ w ++ "." ++ clock.tsCompact)),
      dlook_dirWrite_self]
  · show dlook _ tid _ = _
    simp only [archiveSuccess, manifestCopyName, resultFileName, doneMarkerName]
    rw [dlook_dirWrite_ne_file _ _ _ _ _
        (append_result_ne_done (tid ++ "." ++ w ++ "." ++ clock.tsCompact) (src ++ "." ++ w)),
      dlook_dirWrite_self]
  · show dlook _ tid _ = _
    simp only [archiveSuccess, manifestCopyName, resultFileName, doneMarkerName]
    rw [dlook_dirWrite_self]
  · simp only [archiveSuccess]
    exact alook_filter_out _ _

theorem archiveFailure_facts (env : Env) (clock : Clock) (w : String) (fs : FS)
    (src dst : String) (c : FileContent) (e : PyExc) :
    (archiveFailure env clock w fs src dst c e).failedFile (failure_task_id clock dst c)
        (manifestCopyName (failure_task_id clock dst c) w) = some (.copy c) ∧
    (archiveFailure env clock w fs src dst c e).failedFile (failure_task_id clock dst c)
        (errorFileName (failure_task_id clock dst c) w clock.tsCompact) =
      some (.record (mkErrorRecord env clock w (failure_task_id clock dst c) e)) ∧
    (archiveFailure env clock w fs src dst c e).failedFile (failure_task_id clock dst c)
        (failedMarkerName src w) = some (.copy c) ∧
    (archiveFailure env clock w fs src dst c e).pending = fs.pending ∧
    alook (archiveFailure env clock w fs src dst c e).processing dst = none := by
  refine ⟨?_, ?_, ?_, rfl, ?_⟩
  · show dlook _ _ _ = _
    simp only [archiveFailure, manifestCopyName, errorFileName, failedMarkerName]
    rw [dlook_dirWrite_ne_file _ _ _ _ _
        (append_manifest_ne_failed (failure_task_id clock dst c ++ "." ++ w) (src ++ "." ++ w)),
      dlook_dirWrite_ne_file _ _ _ _ _
        (append_manifest_ne_error (failure_task_id clock dst c ++ "." ++ w)
          (failure_task_id clock dst c ++ "." ++ w ++ "." ++ clock.tsCompact)),
      dlook_dirWrite_self]
  · show dlook _ _ _ = _
    simp only [archiveFailure, manifestCopyName, errorFileName, failedMarkerName]
    rw [dlook_dirWrite_ne_file _ _ _ _ _
        (append_error_ne_failed
          (failure_task_id clock dst c ++ "." ++ w ++ "." ++ clock.tsCompact) (src ++ "." ++ w)),
      dlook_dirWrite_self]
  · show dlook _ _ _ = _
    simp only [archiveFailure, manifestCopyName, errorFileName, failedMarkerName]
    rw [dlook_dirWrite_self]
  · simp only [archiveFailure]
    exact alook_filter_out _ _

theorem run_once_claimed (oracle : HandlerOracle) (env : Env) (clock : Clock)
    (fr w : String) (ps : Int) (fs : FS) (src : String) (c : FileContent)
    (hsel : selectCandidate fs = some src)
    (hfind : fs.pending.find? (fun p => p.1 == src) = some (src, c)) :
    run_once oracle env clock fr w ps false none fs =
      (match tryBlock oracle clock fr (claimFS fs src (markerName src w) c)
          (markerName src w) c with
       | .ok (fs2, tid, ttype, att, outs, mets) =>
         (true, archiveSuccess env clock w fs2 src (markerName src w) tid ttype att c outs mets)
       | .error e =>
         (false, archiveFailure env clock w (claimFS fs src (markerName src w) c) src
           (markerName src w) c e),
       mkHeartbeat env w clock ps false) := by
  simp only [run_once, Bool.false_and, Bool.false_eq_true, if_false, hsel, tryRenameClaim, hfind]
  cases tryBlock oracle clock fr (claimFS fs src (markerName src w) c) (markerName src w) c with
  | ok out =>
    obtain ⟨fs2, tid, ttype, att, outs, mets⟩ := out
    rfl
  | error e => rfl

theorem wellFormedResultRecord_mk (env : Env) (clock : Clock) (w tid ttype : String)
    (att : Int) (outs : List String) (mets : Metrics) :
    wellFormedResultRecord (mkResultRecord env clock w tid ttype att outs mets) := by
  simp [wellFormedResultRecord, mkResultRecord, alook]

theorem wellFormedErrorRecord_mk (env : Env) (clock : Clock) (w tid : String) (e : PyExc) :
    wellFormedErrorRecord (mkErrorRecord env clock w tid e) := by
  simp [wellFormedErrorRecord, mkErrorRecord, alook]

theorem alook_mkErrorRecord_fields (env : Env) (clock : Clock) (w tid : String) (e : PyExc) :
    alook (mkErrorRecord env clock w tid e) "error_type" = some (.vstr e.ename) ∧
    alook (mkErrorRecord env clock w tid e) "error" = some (.vstr e.emsg) ∧
    alook (mkErrorRecord env clock w tid e) "task_id" = some (.vstr tid) ∧
    alook (mkErrorRecord env clock w tid e) "watcher_id" = some (.vstr w) ∧
    alook (mkErrorRecord env clock w tid e) "started_utc" = some (.vstr clock.startIso) ∧
    alook (mkErrorRecord env clock w tid e) "ended_utc" = some (.vstr clock.endIso) ∧
    alook (mkErrorRecord env clock w tid e) "duration_seconds" = some (.vint clock.elapsed) ∧
    alook (mkErrorRecord env clock w tid e) "traceback" = some (.vstr (tracebackOf e)) ∧
    alook (mkErrorRecord env clock w tid e) "task_type" = none ∧
    alook (mkErrorRecord env clock w tid e) "attempt" = none := by
  refine ⟨?_, ?_, ?_, ?_, ?_, ?_, ?_, ?_, ?_, ?_⟩ <;> simp [mkErrorRecord, alook]

theorem runClaims_all_fail (name : String) (ws : List String) (fs : FS)
    (h : name ∉ fs.pending.map Prod.fst) :
    runClaims name ws fs = (List.replicate ws.length false, fs) := by
  induction ws with
  | nil => rfl
  | cons w ws ih =>
    have hf : fs.pending.find? (fun p => p.1 == name) = none := by
      rw [List.find?_eq_none]
      intro x hx
      simp only [beq_iff_eq]
      intro hx1
      exact h (List.mem_map.mpr ⟨x, hx, hx1⟩)
    simp only [runClaims, atomic_rename, tryRenameClaim, hf, ih, List.replicate]

theorem not_mem_claimFS_pending (fs : FS) (name dst : String) (c : FileContent) :
    name ∉ (claimFS fs name dst c).pending.map Prod.fst := by
  intro hmem
  obtain ⟨p, hp, hp1⟩ := List.mem_map.mp hmem
  have := List.of_mem_filter hp
  rw [hp1] at this
  simp at this

/-- C1: when N watchers each invoke the claim rename on the same pending
manifest, any interleaving of the atomic renames yields exactly one
`true` outcome and N-1 `false` outcomes: the manifest is claimed by at
most one watcher. -/
theorem claim_mutual_exclusion (fs : FS) (name : String) (ws : List String)
    (hmem : name ∈ fs.pending.map Prod.fst) (hne : ws ≠ []) :
    (runClaims name ws fs).1.length = ws.length ∧
    (runClaims name ws fs).1.count true = 1 := by
  cases ws with
  | nil => exact absurd rfl hne
  | cons w ws =>
    have hex : ∃ x ∈ fs.pending, (fun p => p.1 == name) x = true := by
      obtain ⟨p, hp, hp1⟩ := List.mem_map.mp hmem
      exact ⟨p, hp, by simp [hp1]⟩
    obtain ⟨pc, hpc⟩ := Option.isSome_iff_exists.mp (List.find?_isSome.mpr hex)
    simp only [runClaims, atomic_rename, tryRenameClaim, hpc]
    rw [runClaims_all_fail name ws _ (not_mem_claimFS_pending fs name (markerName name w) pc.2)]
    constructor
    · simp
    · simp [List.count_cons, List.count_replicate]

/-- Witness for `claim_mutual_exclusion`: three concurrent watchers race
for `a.json`; exactly one of the three claim renames succeeds. -/
theorem claim_mutual_exclusion_witness :
    (runClaims "a.json" ["w1", "w2", "w3"] fsNoop3).1.length = 3 ∧
    (runClaims "a.json" ["w1", "w2", "w3"] fsNoop3).1.count true = 1 :=
  claim_mutual_exclusion fsNoop3 "a.json" ["w1", "w2", "w3"] (by decide) (by decide)

/-- C2: `atomic_rename` returns `true` exactly when the rename succeeded;
on any OS-level failure it returns `false`, leaves the state unchanged and
lets no exception escape (it is a total function), and a cycle whose claim
rename fails changes nothing and claims no other candidate. -/
theorem atomic_rename_failure_semantics (oracle : HandlerOracle) (env : Env) (clock : Clock)
    (fr w : String) (ps : Int) (opp : Bool) (e : OSErr) (fs : FS) (src : String)
    (hsel : selectCandidate fs = some src) :
    (∀ (inj : Option OSErr) (src' dst' : String) (fs' : FS),
       ((atomic_rename inj src' dst' fs').1 = true ↔
         ∃ r, tryRenameClaim inj src' dst' fs' = .ok r)) ∧
    (∀ (inj : Option OSErr) (src' dst' : String) (fs' : FS) (e' : OSErr),
       tryRenameClaim inj src' dst' fs' = .error e' →
         atomic_rename inj src' dst' fs' = (false, fs')) ∧
    run_once oracle env clock fr w ps opp (some e) fs =
      ((false, fs), mkHeartbeat env w clock ps opp) := by
  refine ⟨?_, ?_, ?_⟩
  · intro inj src' dst' fs'
    cases h : tryRenameClaim inj src' dst' fs' with
    | ok r => simp [atomic_rename, h]
    | error e' => simp [atomic_rename, h]
  · intro inj src' dst' fs' e' h
    simp [atomic_rename, h]
  · by_cases hc : (opp && !(is_orionmx_busy fs)) = true
    · simp [run_once, hc]
    · simp only [run_once, hc, if_false, Bool.not_eq_true] at *
      simp [run_once, hc, hsel, tryRenameClaim]

/-- Witness for `atomic_rename_failure_semantics`: a cycle whose claim
rename hits a permission error returns no task and leaves the queue
unchanged. -/
theorem atomic_rename_failure_semantics_witness :
    run_once oracle0 env0 clock0 "FR" "w1" 30 false (some .permissionError) fsNoop3 =
      ((false, fsNoop3), mkHeartbeat env0 "w1" clock0 30 false) :=
  (atomic_rename_failure_semantics oracle0 env0 clock0 "FR" "w1" 30 false .permissionError
    fsNoop3 "a.json" (by decide)).2.2

/-- C3: when the claim succeeds and the dispatched handler returns
successfully, the cycle returns with `completed/<task_id>/` containing a
copy of the original manifest and a well-formed Result Record, and the
processing marker has been moved into that directory as a `.done`
artifact (it is gone from `processing`, not deleted outright). In
particular every cycle recorded as completed has its Result Record. -/
theorem archive_atomicity_on_success (oracle : HandlerOracle) (env : Env) (clock : Clock)
    (fr w : String) (ps : Int) (fs : FS) (src : String) (c : FileContent) (fs2 : FS)
    (tid ttype : String) (att : Int) (outs : List String) (mets : Metrics)
    (hsel : selectCandidate fs = some src)
    (hfind : fs.pending.find? (fun p => p.1 == src) = some (src, c))
    (hok : tryBlock oracle clock fr (claimFS fs src (markerName src w) c)
      (markerName src w) c = .ok (fs2, tid, ttype, att, outs, mets)) :
    (run_once oracle env clock fr w ps false none fs).1.1 = true ∧
    (run_once oracle env clock fr w ps false none fs).1.2.completedFile tid
        (manifestCopyName tid w) = some (.copy c) ∧
    (∃ r : Record,
       (run_once oracle env clock fr w ps false none fs).1.2.completedFile tid
           (resultFileName tid w clock.tsCompact) = some (.record r) ∧
       wellFormedResultRecord r) ∧
    (run_once oracle env clock fr w ps false none fs).1.2.completedFile tid
        (doneMarkerName src w) = some (.copy c) ∧
    alook (run_once oracle env clock fr w ps false none fs).1.2.processing
        (markerName src w) = none := by
  rw [run_once_claimed oracle env clock fr w ps fs src c hsel hfind, hok]
  obtain ⟨h1, h2, h3, _, h5⟩ :=
    archiveSuccess_facts env clock w fs2 src (markerName src w) tid ttype att c outs mets
  exact ⟨rfl, h1, ⟨_, h2, wellFormedResultRecord_mk env clock w tid ttype att outs mets⟩, h3, h5⟩

/-- The post-handler state of the concrete `noop` run used as witness:
the claim moved `a.json` into `processing` and the handler wrote its
marker under `completed/t3/noop/`. -/
def fs2Noop3 : FS :=
  { pending := [],
    processing := [("a.json.w1.processing", .manifest manifestNoop3)],
    completed := [("t3", [("noop/noop_t3_20250102T030405Z.txt", .text "noop ok\n")])],
    failed := [] }

/-- Witness for `archive_atomicity_on_success`: the concrete `noop` run
completes and archives its Result Record. -/
theorem archive_atomicity_on_success_witness :
    (run_once oracle0 env0 clock0 "FR" "w1" 30 false none fsNoop3).1.1 = true ∧
    (run_once oracle0 env0 clock0 "FR" "w1" 30 false none fsNoop3).1.2.completedFile "t3"
        (manifestCopyName "t3" "w1") = some (.copy (.manifest manifestNoop3)) :=
  have h := archive_atomicity_on_success oracle0 env0 clock0 "FR" "w1" 30 fsNoop3 "a.json"
    (.manifest manifestNoop3) fs2Noop3 "t3" "noop" 1
    ["FR/completed/t3/noop/noop_t3_20250102T030405Z.txt"] [("noop", .mbool true)]
    (by decide) (by decide) (by rfl)
  ⟨h.1, h.2.1⟩

/-- C4 counterexample: a concrete failing run writes an Error Record that
lacks the `task_type` and `attempt` fields, although the claim asserts
every Error Record carries the same identity fields as a Result Record
(`task_id`, `task_type`, `attempt`, `watcher_id`, timestamps, duration). -/
theorem error_record_missing_task_type_cex :
    (run_once oracle0 env0 clock0 "FR" "w1" 30 false none fsErr4).1.2.failedFile "tid4"
        "tid4.w1.20250102T030405Z.error.json" =
      some (.record (mkErrorRecord env0 clock0 "w1" "tid4"
        ⟨"ValueError", "Unknown task_type: bad"⟩)) ∧
    alook (mkErrorRecord env0 clock0 "w1" "tid4"
        ⟨"ValueError", "Unknown task_type: bad"⟩) "task_type" = none ∧
    alook (mkErrorRecord env0 clock0 "w1" "tid4"
        ⟨"ValueError", "Unknown task_type: bad"⟩) "attempt" = none := by
  refine ⟨by rfl, by rfl, by rfl⟩

/-- C4 amended: every Error Record carries `task_id`, `watcher_id`, the
start/end timestamps and the duration, plus `error_type`, the error
message and a captured stack trace — but, unlike a Result Record, it
omits the `task_type` and `attempt` fields. -/
theorem error_record_shape_amended (env : Env) (clock : Clock) (w tid : String) (e : PyExc) :
    wellFormedErrorRecord (mkErrorRecord env clock w tid e) ∧
    alook (mkErrorRecord env clock w tid e) "task_id" = some (.vstr tid) ∧
    alook (mkErrorRecord env clock w tid e) "watcher_id" = some (.vstr w) ∧
    alook (mkErrorRecord env clock w tid e) "started_utc" = some (.vstr clock.startIso) ∧
    alook (mkErrorRecord env clock w tid e) "ended_utc" = some (.vstr clock.endIso) ∧
    alook (mkErrorRecord env clock w tid e) "duration_seconds" = some (.vint clock.elapsed) ∧
    alook (mkErrorRecord env clock w tid e) "error_type" = some (.vstr e.ename) ∧
    alook (mkErrorRecord env clock w tid e) "error" = some (.vstr e.emsg) ∧
    alook (mkErrorRecord env clock w tid e) "traceback" = some (.vstr (tracebackOf e)) ∧
    alook (mkErrorRecord env clock w tid e) "task_type" = none ∧
    alook (mkErrorRecord env clock w tid e) "attempt" = none := by
  obtain ⟨h1, h2, h3, h4, h5, h6, h7, h8, h9, h10⟩ :=
    alook_mkErrorRecord_fields env clock w tid e
  exact ⟨wellFormedErrorRecord_mk env clock w tid e, h3, h4, h5, h6, h7, h1, h2, h8, h9, h10⟩

theorem tryBlock_unknown_type (oracle : HandlerOracle) (clock : Clock) (fr : String)
    (fs : FS) (dst : String) (m : Manifest) (t : String)
    (hschema : schemaTruthyBad m.schema = false)
    (hty : m.task_type = some t) (htr : strTrim t ≠ "")
    (h1 : strTrim t ≠ "noop") (h2 : strTrim t ≠ "stage1.inventory")
    (h3 : strTrim t ≠ "stage1.ia_download") :
    tryBlock oracle clock fr fs dst (.manifest m) =
      .error ⟨"ValueError", "Unknown task_type: " ++ strTrim t⟩ := by
  simp only [tryBlock, hschema, Bool.false_eq_true, if_false, hty]
  rw [if_neg htr]
  simp only [execute_manifest_task, if_neg h1, if_neg h2, if_neg h3]
  rfl

/-- C5 amended: a claimed manifest whose `task_type` is not in the
handler registry is archived through the same Error Record path as a
handler failure, under `failed/<task_id>/`, with `error_type`
`"ValueError"` and error message `"Unknown task_type: <type>"`; the cycle
returns normally. It is the message, not the `error_type` field, that
identifies the dispatch-time failure: `error_type` is the exception class
name, which a handler failure can share (see the counterexample). -/
theorem unknown_task_type_amended (oracle : HandlerOracle) (env : Env) (clock : Clock)
    (fr w : String) (ps : Int) (fs : FS) (src : String) (m : Manifest) (t i : String)
    (hsel : selectCandidate fs = some src)
    (hfind : fs.pending.find? (fun p => p.1 == src) = some (src, .manifest m))
    (hschema : schemaTruthyBad m.schema = false)
    (hty : m.task_type = some t) (htr : strTrim t ≠ "")
    (h1 : strTrim t ≠ "noop") (h2 : strTrim t ≠ "stage1.inventory")
    (h3 : strTrim t ≠ "stage1.ia_download")
    (hid : m.task_id = some i) (hitr : strTrim i ≠ "") :
    (run_once oracle env clock fr w ps false none fs).1.1 = false ∧
    (run_once oracle env clock fr w ps false none fs).1.2.failedFile (strTrim i)
        (errorFileName (strTrim i) w clock.tsCompact) =
      some (.record (mkErrorRecord env clock w (strTrim i)
        ⟨"ValueError", "Unknown task_type: " ++ strTrim t⟩)) ∧
    alook (mkErrorRecord env clock w (strTrim i)
        ⟨"ValueError", "Unknown task_type: " ++ strTrim t⟩) "error_type" =
      some (.vstr "ValueError") ∧
    alook (mkErrorRecord env clock w (strTrim i)
        ⟨"ValueError", "Unknown task_type: " ++ strTrim t⟩) "error" =
      some (.vstr ("Unknown task_type: " ++ strTrim t)) := by
  have hfid : failure_task_id clock (markerName src w) (.manifest m) = strTrim i := by
    simp only [failure_task_id, hid, if_pos hitr]
  rw [run_once_claimed oracle env clock fr w ps fs src (.manifest m) hsel hfind,
    tryBlock_unknown_type oracle clock fr _ _ m t hschema hty htr h1 h2 h3]
  obtain ⟨_, he, _, _, _⟩ := archiveFailure_facts env clock w
    (claimFS fs src (markerName src w) (.manifest m)) src (markerName src w) (.manifest m)
    ⟨"ValueError", "Unknown task_type: " ++ strTrim t⟩
  rw [hfid] at he
  obtain ⟨hf1, hf2, _⟩ := alook_mkErrorRecord_fields env clock w (strTrim i)
    ⟨"ValueError", "Unknown task_type: " ++ strTrim t⟩
  exact ⟨rfl, he, hf1, hf2⟩

/-- Witness for `unknown_task_type_amended`: the concrete
`does_not_exist` run archives its Error Record under `failed/tid5a/`. -/
theorem unknown_task_type_amended_witness :
    (run_once oracle0 env0 clock0 "FR" "w1" 30 false none fsUnknown5).1.1 = false ∧
    (run_once oracle0 env0 clock0 "FR" "w1" 30 false none fsUnknown5).1.2.failedFile "tid5a"
        (errorFileName "tid5a" "w1" "20250102T030405Z") =
      some (.record (mkErrorRecord env0 clock0 "w1" "tid5a"
        ⟨"ValueError", "Unknown task_type: does_not_exist"⟩)) :=
  have h := unknown_task_type_amended oracle0 env0 clock0 "FR" "w1" 30 fsUnknown5 "t.json"
    manifestUnknown5 "does_not_exist" "tid5a" (by decide) (by decide) (by decide) (by decide)
    (by decide) (by decide) (by decide) (by decide) (by decide) (by decide)
  ⟨h.1, h.2.1⟩

/-- C5 counterexample: the Error Record for an unknown `task_type` has
`error_type` `"ValueError"`, and a genuine handler failure (the
`stage1.inventory` handler rejecting a non-object payload) produces an
Error Record with the very same `error_type`, so the `error_type` field
does not indicate an unknown task type as distinct from a handler
failure. -/
theorem unknown_task_type_error_type_cex :
    (run_once oracle0 env0 clock0 "FR" "w1" 30 false none fsUnknown5).1.2.failedFile "tid5a"
        "tid5a.w1.20250102T030405Z.error.json" =
      some (.record (mkErrorRecord env0 clock0 "w1" "tid5a"
        ⟨"ValueError", "Unknown task_type: does_not_exist"⟩)) ∧
    (run_once oracle0 env0 clock0 "FR" "w1" 30 false none fsBadPayload5).1.2.failedFile "tid5b"
        "tid5b.w1.20250102T030405Z.error.json" =
      some (.record (mkErrorRecord env0 clock0 "w1" "tid5b"
        ⟨"ValueError", "payload must be an object (dict)"⟩)) ∧
    alook (mkErrorRecord env0 clock0 "w1" "tid5a"
        ⟨"ValueError", "Unknown task_type: does_not_exist"⟩) "error_type" =
      alook (mkErrorRecord env0 clock0 "w1" "tid5b"
        ⟨"ValueError", "payload must be an object (dict)"⟩) "error_type" := by
  refine ⟨by rfl, by rfl, by rfl⟩

theorem tryBlock_error_of_malformed (oracle : HandlerOracle) (clock : Clock) (fr : String)
    (fs : FS) (dst : String) (c : FileContent) (h : malformedContent c = true) :
    ∃ e, tryBlock oracle clock fr fs dst c = .error e := by
  cases c with
  | invalidJson => exact ⟨_, rfl⟩
  | nonDict => exact ⟨_, rfl⟩
  | manifest m =>
    by_cases hs : schemaTruthyBad m.schema = true
    · exact ⟨⟨"ValueError", "Unsupported task schema: " ++ schemaShow m.schema⟩,
        by simp only [tryBlock, hs, if_true]⟩
    · have hs' : schemaTruthyBad m.schema = false := by
        cases h' : schemaTruthyBad m.schema
        · rfl
        · exact absurd h' hs
      simp only [malformedContent, hs', Bool.false_or] at h
      cases hty : m.task_type with
      | none =>
        exact ⟨⟨"KeyError", "Missing required task_type (string)"⟩,
          by simp only [tryBlock, hs', Bool.false_eq_true, if_false, hty]⟩
      | some t =>
        rw [hty] at h
        have ht : strTrim t = "" := of_decide_eq_true h
        exact ⟨⟨"KeyError", "Missing required task_type (string)"⟩,
          by simp only [tryBlock, hs', Bool.false_eq_true, if_false, hty, if_pos ht]⟩

/-- C6 amended: a claimed manifest that is unparseable, not a JSON
object, carries an unsupported non-empty `schema`, or is missing a
non-blank `task_type` string always yields an Error Record under
`failed/<id>/` and the cycle returns normally (the watcher process does
not crash). A missing `task_id`, however, is not an error: the watcher
derives a fallback id from the timestamp and marker stem and processes
the task normally (see the counterexample). -/
theorem malformed_manifest_error_record (oracle : HandlerOracle) (env : Env) (clock : Clock)
    (fr w : String) (ps : Int) (fs : FS) (src : String) (c : FileContent)
    (hsel : selectCandidate fs = some src)
    (hfind : fs.pending.find? (fun p => p.1 == src) = some (src, c))
    (hmal : malformedContent c = true) :
    (run_once oracle env clock fr w ps false none fs).1.1 = false ∧
    ∃ e : PyExc,
      (run_once oracle env clock fr w ps false none fs).1.2.failedFile
          (failure_task_id clock (markerName src w) c)
          (errorFileName (failure_task_id clock (markerName src w) c) w clock.tsCompact) =
        some (.record (mkErrorRecord env clock w
          (failure_task_id clock (markerName src w) c) e)) ∧
      wellFormedErrorRecord (mkErrorRecord env clock w
        (failure_task_id clock (markerName src w) c) e) := by
  obtain ⟨e, he⟩ := tryBlock_error_of_malformed oracle clock fr
    (claimFS fs src (markerName src w) c) (markerName src w) c hmal
  rw [run_once_claimed oracle env clock fr w ps fs src c hsel hfind, he]
  obtain ⟨_, herr, _, _, _⟩ := archiveFailure_facts env clock w
    (claimFS fs src (markerName src w) c) src (markerName src w) c e
  exact ⟨rfl, e, herr,
    wellFormedErrorRecord_mk env clock w (failure_task_id clock (markerName src w) c) e⟩

/-- Queue state with a claimable manifest carrying an unsupported
schema tag. -/
def fsMal6 : FS :=
  { pending := [("m.json", .manifest { schema := some "bogus", task_type := some "noop" })],
    processing := [], completed := [], failed := [] }

/-- Witness for `malformed_manifest_error_record`: the unsupported-schema
manifest is archived with an Error Record and the cycle returns. -/
theorem malformed_manifest_error_record_witness :
    (run_once oracle0 env0 clock0 "FR" "w1" 30 false none fsMal6).1.1 = false :=
  (malformed_manifest_error_record oracle0 env0 clock0 "FR" "w1" 30 fsMal6 "m.json"
    (.manifest { schema := some "bogus", task_type := some "noop" })
    (by decide) (by decide) (by decide)).1

/-- C6 counterexample: a claimed manifest missing the required `task_id`
field is not archived as an error — the run completes, writes no Error
Record anywhere (`failed` stays empty), and records a Result Record
under the derived fallback id. -/
theorem missing_task_id_success_cex :
    (run_once oracle0 env0 clock0 "FR" "w1" 30 false none fsNoId6).1.1 = true ∧
    (run_once oracle0 env0 clock0 "FR" "w1" 30 false none fsNoId6).1.2.failed = [] ∧
    ((run_once oracle0 env0 clock0 "FR" "w1" 30 false none fsNoId6).1.2.completedFile
        "20250102T030405Z_a.json.w1"
        "20250102T030405Z_a.json.w1.w1.20250102T030405Z.result.json").isSome = true := by
  refine ⟨by rfl, by rfl, by rfl⟩

/-- C7 amended: in opportunistic mode the gate is a substring test on the
file names in `processing`: if no file name there contains `"orionmx_"`,
the cycle claims nothing no matter how many manifests are pending. The
test is not ownership of the marker by a different primary watcher
identity: a marker whose original manifest name contains `"orionmx_"`
opens the gate even when it belongs to a non-primary watcher (see the
counterexample). -/
theorem opportunistic_gating_amended (oracle : HandlerOracle) (env : Env) (clock : Clock)
    (fr w : String) (ps : Int) (inj : Option OSErr) (fs : FS)
    (hnone : ∀ p ∈ fs.processing, strContains p.1 "orionmx_" = false) :
    run_once oracle env clock fr w ps true inj fs =
      ((false, fs), mkHeartbeat env w clock ps true) ∧
    (is_orionmx_busy fs = false ↔
      ∀ p ∈ fs.processing, strContains p.1 "orionmx_" = false) := by
  have hbusy : is_orionmx_busy fs = false := by
    apply List.any_eq_false.mpr
    intro p hp
    simp [hnone p hp]
  constructor
  · simp [run_once, hbusy]
  · constructor
    · intro hb p hp
      have := List.any_eq_false.mp hb p hp
      simpa using this
    · intro hall
      apply List.any_eq_false.mpr
      intro p hp
      simp [hall p hp]

/-- Witness for `opportunistic_gating_amended`: with an empty
`processing` directory and one pending manifest, an opportunistic cycle
claims nothing. -/
theorem opportunistic_gating_amended_witness :
    run_once oracle0 env0 clock0 "FR" "opp1" 10 true none fsNoop3 =
      ((false, fsNoop3), mkHeartbeat env0 "opp1" clock0 10 true) :=
  (opportunistic_gating_amended oracle0 env0 clock0 "FR" "opp1" 10 none fsNoop3
    (by decide)).1

/-- C7 counterexample: `processing` holds exactly one marker,
`orionmx_data.json.helper.processing`, which belongs to watcher `helper`
— no decomposition `<name>.<watcher>.processing` of it yields an
`orionmx_*` owner — yet the opportunistic cycle claims and processes the
pending task, because the gate only greps the file name for the
substring `"orionmx_"`, which the producer-chosen manifest name
contains. -/
theorem opportunistic_gating_cex :
    (∀ p ∈ fsOpp7.processing, ownedByOrionmx p.1 = false) ∧
    (run_once oracle0 env0 clock0 "FR" "opp1" 10 true none fsOpp7).1.1 = true ∧
    alook (run_once oracle0 env0 clock0 "FR" "opp1" 10 true none fsOpp7).1.2.pending
      "t.json" = none := by
  refine ⟨by decide, by rfl, by rfl⟩

theorem tryRenameClaim_ok_state (inj : Option OSErr) (src dst : String) (fs : FS)
    (r : FS × FileContent) (h : tryRenameClaim inj src dst fs = .ok r) :
    r.1.pending = fs.pending.filter (fun p => !(p.1 == src)) := by
  cases inj with
  | some e => simp [tryRenameClaim] at h
  | none =>
    simp only [tryRenameClaim] at h
    cases hf : fs.pending.find? (fun p => p.1 == src) with
    | none => rw [hf] at h; simp at h
    | some pc =>
      rw [hf] at h
      cases h
      rfl

theorem execute_manifest_task_pending (oracle : HandlerOracle) (clock : Clock)
    (fr : String) (fs : FS) (m : Manifest) (tid ttype : String)
    (out : FS × List String × Metrics)
    (h : execute_manifest_task oracle clock fr fs m tid ttype = .ok out) :
    out.1.pending = fs.pending := by
  simp only [execute_manifest_task] at h
  by_cases h1 : ttype = "noop"
  · rw [if_pos h1] at h
    cases h
    rfl
  · rw [if_neg h1] at h
    by_cases h2 : ttype = "stage1.inventory"
    · rw [if_pos h2] at h
      simp only [task_stage1_inventory] at h
      cases hp : m.payload <;> rw [hp] at h
      · simp [Except.map] at h
      · cases ho : oracle "stage1.inventory" m with
        | ok om => rw [ho] at h; cases h; rfl
        | error e => rw [ho] at h; simp [Except.map] at h
      · simp [Except.map] at h
    · rw [if_neg h2] at h
      by_cases h3 : ttype = "stage1.ia_download"
      · rw [if_pos h3] at h
        simp only [task_stage1_ia_download] at h
        cases hp : m.payload <;> rw [hp] at h
        · simp [Except.map] at h
        · cases ho : oracle "stage1.ia_download" m with
          | ok om => rw [ho] at h; cases h; rfl
          | error e => rw [ho] at h; simp [Except.map] at h
        · simp [Except.map] at h
      · rw [if_neg h3] at h
        simp at h

theorem tryBlock_pending (oracle : HandlerOracle) (clock : Clock) (fr : String) (fs : FS)
    (dst : String) (c : FileContent)
    (out : FS × String × String × Int × List String × Metrics)
    (h : tryBlock oracle clock fr fs dst c = .ok out) : out.1.pending = fs.pending := by
  cases c with
  | invalidJson => simp [tryBlock] at h
  | nonDict => simp [tryBlock] at h
  | manifest m =>
    simp only [tryBlock] at h
    by_cases hs : schemaTruthyBad m.schema = true
    · rw [if_pos hs] at h; simp at h
    · rw [if_neg hs] at h
      cases hty : m.task_type with
      | none => rw [hty] at h; simp at h
      | some t =>
        rw [hty] at h
        by_cases ht : strTrim t = ""
        · simp [ht] at h
        · simp only [if_neg ht] at h
          cases he : execute_manifest_task oracle clock fr fs m
              (strTrim (match m.task_id with
                | some i => if strTrim i ≠ "" then i else derived_task_id clock dst
                | none => derived_task_id clock dst)) (strTrim t) with
          | ok eo =>
            rw [he] at h
            cases h
            exact execute_manifest_task_pending oracle clock fr fs m _ _ eo he
          | error e => rw [he] at h; simp [Except.map] at h

/-- C8 amended: the candidates of a cycle are the pending files whose
names end in `.json` — not every pending file — and the cycle attempts
the lexicographically-least of those names; it claims at most that one
candidate (on any outcome, `pending` either is untouched or loses
exactly the selected file), and pipelines no further claim within the
cycle. -/
theorem selection_policy_amended (oracle : HandlerOracle) (env : Env) (clock : Clock)
    (fr w : String) (ps : Int) (inj : Option OSErr) (fs : FS) :
    (∀ s, selectCandidate fs = some s →
       s ∈ fs.pending.map Prod.fst ∧ strEndsWith s ".json" = true ∧
       ∀ t ∈ fs.pending.map Prod.fst, strEndsWith t ".json" = true → strLe s t = true) ∧
    ((run_once oracle env clock fr w ps false inj fs).1.2.pending = fs.pending ∨
     ∃ s, selectCandidate fs = some s ∧
       (run_once oracle env clock fr w ps false inj fs).1.2.pending =
         fs.pending.filter (fun p => !(p.1 == s))) := by
  constructor
  · intro s hs
    have hperm := List.perm_insertionSort strLeRel
      ((fs.pending.map Prod.fst).filter (fun n => strEndsWith n ".json"))
    have hsorted := List.sorted_insertionSort strLeRel
      ((fs.pending.map Prod.fst).filter (fun n => strEndsWith n ".json"))
    unfold selectCandidate jsonCandidates at hs
    cases hq : List.insertionSort strLeRel
        ((fs.pending.map Prod.fst).filter (fun n => strEndsWith n ".json")) with
    | nil => rw [hq] at hs; simp at hs
    | cons a rest =>
      rw [hq] at hs hperm hsorted
      have ha : a = s := by simpa using hs
      subst ha
      have hmem_l : a ∈ (fs.pending.map Prod.fst).filter (fun n => strEndsWith n ".json") :=
        hperm.mem_iff.mp (by simp)
      have h1 := (List.mem_filter.mp hmem_l).1
      have h2 := (List.mem_filter.mp hmem_l).2
      refine ⟨h1, h2, ?_⟩
      intro t htm hte
      have htl : t ∈ (fs.pending.map Prod.fst).filter (fun n => strEndsWith n ".json") :=
        List.mem_filter.mpr ⟨htm, hte⟩
      have hmem2 : t ∈ a :: rest := hperm.mem_iff.mpr htl
      cases hmem2 with
      | head => exact strLe_refl a
      | tail _ hmt => exact List.rel_of_sorted_cons hsorted t hmt
  · cases ho : selectCandidate fs with
    | none =>
      left
      simp [run_once, ho]
    | some s =>
      cases htr : tryRenameClaim inj s (markerName s w) fs with
      | error e =>
        left
        simp [run_once, ho, htr]
      | ok rc =>
        right
        obtain ⟨fs1, c⟩ := rc
        refine ⟨s, rfl, ?_⟩
        have hpend := tryRenameClaim_ok_state inj s (markerName s w) fs (fs1, c) htr
        simp only [run_once, Bool.false_and, Bool.false_eq_true, if_false, ho, htr]
        cases htb : tryBlock oracle clock fr fs1 (markerName s w) c with
        | ok out =>
          obtain ⟨fs2, tid, ttype, att, outs, mets⟩ := out
          have hp2 := tryBlock_pending oracle clock fr fs1 (markerName s w) c
            (fs2, tid, ttype, att, outs, mets) htb
          simp only [htb]
          obtain ⟨_, _, _, hap, _⟩ := archiveSuccess_facts env clock w fs2 s
            (markerName s w) tid ttype att c outs mets
          rw [hap, hp2, hpend]
        | error e =>
          simp only [htb]
          obtain ⟨_, _, _, hap, _⟩ := archiveFailure_facts env clock w fs1 s
            (markerName s w) c e
          rw [hap, hpend]

/-- Witness for `selection_policy_amended`: on the concrete two-file
queue, `b.json` is selected and it is minimal among the `.json`
candidates. -/
theorem selection_policy_amended_witness :
    "b.json" ∈ fsSel8.pending.map Prod.fst ∧ strEndsWith "b.json" ".json" = true ∧
    ∀ t ∈ fsSel8.pending.map Prod.fst, strEndsWith t ".json" = true →
      strLe "b.json" t = true :=
  (selection_policy_amended oracle0 env0 clock0 "FR" "w1" 30 none fsSel8).1 "b.json"
    (by decide)

/-- C8 counterexample: `a.txt` is lexicographically first among the
pending files and, per the claim, should be the selected candidate — yet
the cycle selects and claims `b.json` and leaves `a.txt` untouched,
because only `*.json` files are candidates. -/
theorem selection_policy_cex :
    strLt "a.txt" "b.json" = true ∧
    selectCandidate fsSel8 = some "b.json" ∧
    alook (run_once oracle0 env0 clock0 "FR" "w1" 30 false none fsSel8).1.2.pending "a.txt" =
      some (.manifest { task_type := some "noop", task_id := some "t8a" }) ∧
    alook (run_once oracle0 env0 clock0 "FR" "w1" 30 false none fsSel8).1.2.pending "b.json" =
      none := by
  refine ⟨by rfl, by rfl, by rfl, by rfl⟩

/-- C9: lock acquisition is a single atomic directory creation: when the
lock directory already exists it fails immediately (returning the
`SystemExit` outcome) without retrying and without touching the state;
when it is free it acquires the lock whether or not the best-effort
owner-record write succeeds (an owner-write failure changes no owner
record but does not roll back the lock), and a second acquisition for
the same identity while the first is held fails immediately. -/
theorem lock_acquisition_semantics (env : Env) (clock : Clock) (ok1 ok2 : Bool)
    (w : String) (st : LockState) (hfree : lockDirName w ∉ st.locks) :
    (∀ (st' : LockState) (ok' : Bool), lockDirName w ∈ st'.locks →
       acquire_single_instance_lock env clock ok' w st' =
         (.lockHeld (lockDirName w), st')) ∧
    ((acquire_single_instance_lock env clock ok1 w st).1 = .acquired (lockDirName w) ∧
     lockDirName w ∈ (acquire_single_instance_lock env clock ok1 w st).2.locks) ∧
    (acquire_single_instance_lock env clock false w st).2.owners = st.owners ∧
    (acquire_single_instance_lock env clock ok2 w
        (acquire_single_instance_lock env clock ok1 w st).2).1 =
      .lockHeld (lockDirName w) := by
  refine ⟨?_, ?_, ?_, ?_⟩
  · intro st' ok' hmem
    simp [acquire_single_instance_lock, hmem]
  · cases ok1 <;> simp [acquire_single_instance_lock, hfree]
  · simp [acquire_single_instance_lock, hfree]
  · cases ok1 <;> cases ok2 <;> simp [acquire_single_instance_lock, hfree]

/-- Witness for `lock_acquisition_semantics`: from an empty lock tree,
watcher `w1` acquires the lock and a second acquisition fails. -/
theorem lock_acquisition_semantics_witness :
    (acquire_single_instance_lock env0 clock0 true "w1" ⟨[], []⟩).1 =
      .acquired (lockDirName "w1") ∧
    (acquire_single_instance_lock env0 clock0 true "w1"
        (acquire_single_instance_lock env0 clock0 true "w1" ⟨[], []⟩).2).1 =
      .lockHeld (lockDirName "w1") :=
  have h := lock_acquisition_semantics env0 clock0 true true "w1" ⟨[], []⟩ (by decide)
  ⟨h.2.1.1, h.2.2.2⟩

/-- C10: a claimed manifest is rejected before any handler runs exactly
when its `schema` member is present, non-empty, and different from
`"hjb.task.v1"`; with `schema` absent (or `null`) or empty the manifest
is accepted, and with a registered task type (`noop`) its handler
executes normally, producing the handler artifact. -/
theorem schema_gate_iff (oracle : HandlerOracle) (clock : Clock) (fr : String)
    (fs : FS) (dst : String) (m : Manifest) :
    (∀ s, m.schema = some s → s ≠ "" → s ≠ TASK_SCHEMA_V1 →
       tryBlock oracle clock fr fs dst (.manifest m) =
         .error ⟨"ValueError", "Unsupported task schema: " ++ s⟩) ∧
    ((m.schema = none ∨ m.schema = some "") → m.task_type = some "noop" →
       ∃ tid att outs mets fs2,
         tryBlock oracle clock fr fs dst (.manifest m) =
           .ok (fs2, tid, "noop", att, outs, mets) ∧
         fs2.completedFile tid ("noop/noop_" ++ tid ++ "_" ++ clock.tsCompact ++ ".txt") =
           some (.text "noop ok\n")) := by
  constructor
  · intro s hsch hne hnev1
    have hbad : schemaTruthyBad (some s) = true := by
      simp [schemaTruthyBad, hne, hnev1]
    simp only [tryBlock]
    rw [hsch]
    simp [hbad, schemaShow]
  · intro hsch hty
    have hbad : schemaTruthyBad m.schema = false := by
      rcases hsch with h | h <;> simp [schemaTruthyBad, h]
    have hnt : strTrim "noop" = "noop" := by decide
    simp only [tryBlock, hbad, Bool.false_eq_true, if_false, hty, hnt]
    rw [if_neg (by decide : ¬ ("noop" : String) = "")]
    simp only [execute_manifest_task, if_pos rfl, Except.map]
    refine ⟨_, _, _, _, _, rfl, ?_⟩
    exact dlook_dirWrite_self fs.completed _ _ _

/-- Witness for `schema_gate_iff`: a concrete manifest with schema tag
`"old.v0"` is rejected with the unsupported-schema error, and the
empty-schema `noop` manifest is accepted. -/
theorem schema_gate_iff_witness :
    tryBlock oracle0 clock0 "FR" fsNoop3 "x.json.w1.processing"
        (.manifest { schema := some "old.v0", task_type := some "noop" }) =
      .error ⟨"ValueError", "Unsupported task schema: old.v0"⟩ ∧
    ∃ tid att outs mets fs2,
      tryBlock oracle0 clock0 "FR" fsNoop3 "x.json.w1.processing"
          (.manifest { schema := some "", task_type := some "noop" }) =
        .ok (fs2, tid, "noop", att, outs, mets) ∧
      fs2.completedFile tid ("noop/noop_" ++ tid ++ "_" ++ clock0.tsCompact ++ ".txt") =
        some (.text "noop ok\n") :=
  ⟨(schema_gate_iff oracle0 clock0 "FR" fsNoop3 "x.json.w1.processing"
      { schema := some "old.v0", task_type := some "noop" }).1 "old.v0" rfl
      (by decide) (by decide),
   (schema_gate_iff oracle0 clock0 "FR" fsNoop3 "x.json.w1.processing"
      { schema := some "", task_type := some "noop" }).2 (.inr rfl) rfl⟩
